import Mathlib

/-
Shallow embedding of finch/run_continuous.py: the continuous optimization
orchestrator of the drarwing_web repository.

External collaborators (iterate_image, get_fitness, is_drawing_finished,
get_initial_specimen, cv2 image loading, wall-clock readings, the random
number generator) are modelled as inputs: per-iteration environments carry
the candidate produced by iterate_image, the boolean outcome of each
wall-clock comparison, and the values read from the shared flags at that
iteration; randomness is a stream of indices into the candidate list.
-/

namespace Finch

/-- Fitness scores (finch.primitive_types.FitnessScore); only their linear
order matters to the orchestrator, so they are modelled as integers. -/
abbrev FitnessScore := Int

/-- Opaque token for a pixel buffer (finch.primitive_types.Image). -/
abbrev Image := Nat

/-- Opaque token for the fitness state threaded through iterate_image. -/
abbrev Fitness := Nat

/-- Opaque token for a brush set (finch.brush.BrushSet). -/
abbrev BrushSet := Nat

/-- A candidate drawing.  The orchestrator only inspects the
is_placeholder flag; the strokes themselves are opaque. -/
structure Specimen where
  strokes : Nat
  is_placeholder : Bool
  deriving DecidableEq, Repr

/-- The shared state object (finch.shared_state.State) as used by
run_continuous.py: the fields written or read by the orchestrator. -/
structure State where
  img_path : String
  brush : BrushSet
  target_image : Image
  specimen : Specimen
  score : FitnessScore
  image_available : Bool
  update_time_microseconds : Int
  flag_stop : Bool
  flag_next_image : Bool
  lock_image : Bool
  deriving DecidableEq, Repr

/-- The state local to run_continuous_finch together with the shared state:
the fitness state returned by iterate_image, the stagnation counter
n_iterations_with_same_score, and the per-image generation_index. -/
structure LoopState where
  shared : State
  fitness : Fitness
  n_iterations_with_same_score : Nat
  generation_index : Nat
  deriving DecidableEq, Repr

/-- The triple returned by the external mutate-and-score step
iterate_image(specimen, fitness, target_image, target_gradient, ...). -/
structure IterResult where
  specimen : Specimen
  fitness : Fitness
  score : FitnessScore
  deriving DecidableEq, Repr

/-- The acceptance step of run_continuous_finch (lines 77-84):

    if new_score >= shared_state.score:
        n_iterations_with_same_score += 1
    else:
        n_iterations_with_same_score = 0
        fitness = new_fitness
        shared_state.score = new_score
        shared_state.specimen = new_specimen
        shared_state.image_available = True
-/
def acceptStep (st : LoopState) (cand : IterResult) : LoopState :=
  if cand.score ≥ st.shared.score then
    { st with n_iterations_with_same_score := st.n_iterations_with_same_score + 1 }
  else
    { st with
        n_iterations_with_same_score := 0,
        fitness := cand.fitness,
        shared := { st.shared with
          score := cand.score,
          specimen := cand.specimen,
          image_available := true } }

/-- Environment of one iteration of the inner while loop: the shared flags
as read at this iteration, the outcome of the wall-clock budget comparison
time.time() - image_start_time >= MAXIMUM_TIME_PER_IMAGE_SECONDS, the
candidate returned by iterate_image, and the latency value written to
update_time_microseconds. -/
structure IterEnv where
  flag_stop : Bool
  flag_next_image : Bool
  lock_image : Bool
  time_expired : Bool
  cand : IterResult
  dt_microseconds : Int
  deriving DecidableEq, Repr

/-- The guard of the inner while loop (lines 59-63):

    not shared_state.flag_stop
    and not shared_state.flag_next_image
    and (shared_state.lock_image
         or time.time() - image_start_time < MAXIMUM_TIME_PER_IMAGE_SECONDS)
-/
def shouldContinue (e : IterEnv) : Bool :=
  !e.flag_stop && !e.flag_next_image && (e.lock_image || !e.time_expired)

/-- One executed iteration of the inner loop body: generation_index += 1,
then the acceptance step, then the write of update_time_microseconds.
Logging and the frame-pacing sleep have no effect on the state. -/
def loopBody (st : LoopState) (e : IterEnv) : LoopState :=
  let st1 := acceptStep { st with generation_index := st.generation_index + 1 } e.cand
  { st1 with shared := { st1.shared with update_time_microseconds := e.dt_microseconds } }

/-- The inner while loop of run_continuous_finch (lines 59-101), driven by
one IterEnv per iteration; finished is the external convergence predicate
is_drawing_finished(n_iterations_with_same_score, shared_state.score),
consulted only when lock_image is false (lines 96-97). -/
def loopRun (finished : Nat → FitnessScore → Bool) :
    List IterEnv → LoopState → LoopState
  | [], st => st
  | e :: es, st =>
    if shouldContinue e then
      let st1 := loopBody st e
      if !e.lock_image && finished st1.n_iterations_with_same_score st1.shared.score then
        st1
      else
        loopRun finished es st1
    else st

/-- Error raised when the candidate image list is empty: random.choice on
an empty list fails; the spec names this failure NoCandidateImages. -/
inductive FinchError where
  | NoCandidateImages
  deriving DecidableEq, Repr

/-- One call of random.choice(img_paths), driven by an index k: fails on an
empty list, otherwise returns the element at k modulo the length (every
element is returned for some k). -/
def randomChoice (paths : List String) (k : Nat) : Except FinchError String :=
  match paths with
  | [] => Except.error FinchError.NoCandidateImages
  | p :: ps => Except.ok ((p :: ps).getD (k % (p :: ps).length) p)

/-- The retry loop of _get_random_image_path (lines 144-146):

    img_path = previous
    while img_path == previous:
        img_path = random.choice(img_paths)

driven by the index stream choices starting at draw i; fuel bounds the
number of draws, and the value none means the loop has not returned
within that many draws. -/
def selectLoop (paths : List String) (previous : String) (choices : Nat → Nat) :
    Nat → Nat → Option (Except FinchError String)
  | _, 0 => none
  | i, fuel + 1 =>
    match randomChoice paths (choices i) with
    | Except.error err => some (Except.error err)
    | Except.ok p =>
      if p = previous then selectLoop paths previous choices (i + 1) fuel
      else some (Except.ok p)

/-- The candidate paths of _get_random_image_path (line 143): files is the
list of (regular-file) entries of the directory, each joined to the folder. -/
def imgPaths (image_folder : String) (files : List String) : List String :=
  files.map (fun f => image_folder ++ "/" ++ f)

/-- The selector _get_random_image_path (lines 142-147). -/
def get_random_image_path (image_folder : String) (files : List String)
    (previous : String) (choices : Nat → Nat) (fuel : Nat) :
    Option (Except FinchError String) :=
  selectLoop (imgPaths image_folder files) previous choices 0 fuel

/-- The state updates of _initialize_for_next_image (lines 120-139) after
the selector has produced selected_path: write img_path, brush and
target_image; if the specimen is still the placeholder, replace it by the
external initial specimen with is_placeholder cleared; finally write the
sentinel score 9999999.  Brush preloading, image preparation and the
external get_fitness call do not touch the shared state. -/
def init_for_next_image (selected_path : String) (brush : BrushSet)
    (target_image : Image) (initial_specimen : Specimen) (s : State) : State :=
  let s1 := { s with img_path := selected_path, brush := brush, target_image := target_image }
  let s2 :=
    if s1.specimen.is_placeholder then
      { s1 with specimen := { initial_specimen with is_placeholder := false } }
    else s1
  { s2 with score := 9999999 }

/-- _initialize_for_next_image including its call to the selector: fails
when the selector fails, diverges (none) when the selector diverges. -/
def init_result (image_folder : String) (files : List String) (brush : BrushSet)
    (target_image : Image) (initial_specimen : Specimen) (choices : Nat → Nat)
    (fuel : Nat) (s : State) : Option (Except FinchError State) :=
  match get_random_image_path image_folder files s.img_path choices fuel with
  | none => none
  | some (Except.error err) => some (Except.error err)
  | some (Except.ok p) =>
    some (Except.ok (init_for_next_image p brush target_image initial_specimen s))

/-- One iteration of the outer loop of run_continuous_finch (lines 52-58
and the inner loop): initialization for the next image, generation_index
reset to 0, then the inner loop; get_fitness_val is the fitness state
returned by the external get_fitness call during initialization.  The
stagnation counter n_iterations_with_same_score is a local of
run_continuous_finch (line 37) and is carried over unchanged into the new
session. -/
def imageSession (image_folder : String) (files : List String) (brush : BrushSet)
    (target_image : Image) (initial_specimen : Specimen) (choices : Nat → Nat)
    (fuel : Nat) (get_fitness_val : Fitness) (finished : Nat → FitnessScore → Bool)
    (envs : List IterEnv) (st : LoopState) : Option (Except FinchError LoopState) :=
  match init_result image_folder files brush target_image initial_specimen choices fuel st.shared with
  | none => none
  | some (Except.error err) => some (Except.error err)
  | some (Except.ok s) =>
    some (Except.ok (loopRun finished envs
      { shared := s, fitness := get_fitness_val,
        n_iterations_with_same_score := st.n_iterations_with_same_score,
        generation_index := 0 }))

/-- Environment of one poll tick of _wait_for_next_image: the shared flags
as read at that tick and the outcome of the wall-clock comparison
time.time() - wait_start < WAIT_BETWEEN_IMAGES_SECONDS (wait_expired is
its negation). -/
structure WaitEnv where
  lock_image : Bool
  wait_expired : Bool
  flag_stop : Bool
  flag_next_image : Bool
  deriving DecidableEq, Repr

/-- The continuation condition of the wait loop of _wait_for_next_image
(lines 164-169):

    shared_state.lock_image or (
        time.time() - wait_start < WAIT_BETWEEN_IMAGES_SECONDS
        and not shared_state.flag_stop
        and not shared_state.flag_next_image
    )
-/
def waitContinue (w : WaitEnv) : Bool :=
  w.lock_image || (!w.wait_expired && !w.flag_stop && !w.flag_next_image)

/-- The wait loop of _wait_for_next_image driven by one WaitEnv per poll
tick: some n means the loop exited after sleeping n times; none means the
loop was still waiting when the given tick sequence ran out. -/
def waitPolls : List WaitEnv → Option Nat
  | [] => none
  | w :: ws =>
    if waitContinue w then Option.map (fun n => n + 1) (waitPolls ws)
    else some 0

/-- Concrete non-placeholder specimen used in witnesses. -/
def exSpecimen : Specimen := { strokes := 7, is_placeholder := false }

/-- Concrete shared state used in witnesses. -/
def exShared : State :=
  { img_path := "img/a.png", brush := 0, target_image := 1,
    specimen := exSpecimen, score := 50, image_available := true,
    update_time_microseconds := 0, flag_stop := false,
    flag_next_image := false, lock_image := false }

/-- Concrete loop state used in witnesses. -/
def exLoopState : LoopState :=
  { shared := exShared, fitness := 3, n_iterations_with_same_score := 4,
    generation_index := 2 }

/-- Concrete improving candidate (score 40 < 50) used in witnesses. -/
def exCand : IterResult :=
  { specimen := { strokes := 8, is_placeholder := false }, fitness := 9, score := 40 }

/-- Concrete non-improving candidate (score 60 >= 50) used in witnesses. -/
def exCandBad : IterResult :=
  { specimen := { strokes := 9, is_placeholder := false }, fitness := 11, score := 60 }

/-- Concrete iteration environment with an improving candidate. -/
def exEnv : IterEnv :=
  { flag_stop := false, flag_next_image := false, lock_image := false,
    time_expired := false, cand := exCand, dt_microseconds := 100 }

/-- Concrete locked iteration environment whose time budget has expired. -/
def exEnvLocked : IterEnv :=
  { flag_stop := false, flag_next_image := false, lock_image := true,
    time_expired := true, cand := exCandBad, dt_microseconds := 5 }

/-- Concrete wait tick: locked, delay elapsed, stop requested. -/
def exWaitLocked : WaitEnv :=
  { lock_image := true, wait_expired := true, flag_stop := true,
    flag_next_image := false }

/-- Concrete unlocked iteration environment whose candidate scores at or
above the post-initialization sentinel 9999999. -/
def exEnvReject : IterEnv :=
  { flag_stop := false, flag_next_image := false, lock_image := false,
    time_expired := false,
    cand := { specimen := { strokes := 5, is_placeholder := false },
              fitness := 2, score := 10000000 },
    dt_microseconds := 1 }

/-- The acceptance step never increases the stored score. -/
theorem acceptStep_score_le (st : LoopState) (c : IterResult) :
    (acceptStep st c).shared.score ≤ st.shared.score := by
  by_cases h : c.score ≥ st.shared.score
  · simp [acceptStep, h]
  · simp [acceptStep, h]
    exact le_of_lt (lt_of_not_ge h)

/-- One executed loop iteration never increases the stored score. -/
theorem loopBody_score_le (st : LoopState) (e : IterEnv) :
    (loopBody st e).shared.score ≤ st.shared.score := by
  have h := acceptStep_score_le { st with generation_index := st.generation_index + 1 } e.cand
  simpa [loopBody] using h

/-- Any run of the inner loop never increases the stored score. -/
theorem loopRun_score_le (f : Nat → FitnessScore → Bool) (envs : List IterEnv)
    (st : LoopState) : (loopRun f envs st).shared.score ≤ st.shared.score := by
  induction envs generalizing st with
  | nil => simp [loopRun]
  | cons e es ih =>
    simp only [loopRun]
    by_cases hg : shouldContinue e = true
    · simp only [hg, if_true]
      by_cases hb : (!e.lock_image
          && f (loopBody st e).n_iterations_with_same_score (loopBody st e).shared.score) = true
      · simp only [hb, if_true]
        exact loopBody_score_le st e
      · simp only [hb, if_false]
        exact le_trans (ih (loopBody st e)) (loopBody_score_le st e)
    · simp [hg]

/-- C1: in every iteration of the per-image optimization loop, the
candidate replaces the shared specimen and score exactly when its score is
strictly less than the current shared score; on acceptance the fitness
state is updated, image_available is set and the stagnation counter is
reset; on rejection (candidate score greater than or equal to the current
score) specimen, score, fitness state and image_available are unchanged. -/
theorem accept_exactly_on_strict_improvement (st : LoopState) (cand : IterResult) :
    (cand.score < st.shared.score →
      (acceptStep st cand).shared.specimen = cand.specimen
      ∧ (acceptStep st cand).shared.score = cand.score
      ∧ (acceptStep st cand).fitness = cand.fitness
      ∧ (acceptStep st cand).shared.image_available = true
      ∧ (acceptStep st cand).n_iterations_with_same_score = 0)
    ∧ (st.shared.score ≤ cand.score →
      (acceptStep st cand).shared.specimen = st.shared.specimen
      ∧ (acceptStep st cand).shared.score = st.shared.score
      ∧ (acceptStep st cand).fitness = st.fitness
      ∧ (acceptStep st cand).shared.image_available = st.shared.image_available) := by
  constructor
  · intro h
    simp [acceptStep, not_le.mpr h]
  · intro h
    simp [acceptStep, h]

/-- Witness for C1 at a concrete improving candidate. -/
theorem accept_exactly_on_strict_improvement_witness :
    (acceptStep exLoopState exCand).shared.specimen = exCand.specimen
    ∧ (acceptStep exLoopState exCand).shared.score = exCand.score
    ∧ (acceptStep exLoopState exCand).fitness = exCand.fitness
    ∧ (acceptStep exLoopState exCand).shared.image_available = true
    ∧ (acceptStep exLoopState exCand).n_iterations_with_same_score = 0 :=
  (accept_exactly_on_strict_improvement exLoopState exCand).1 (by decide)

/-- C2: within one image session the shared score is monotonically
non-increasing, both over a single executed iteration and over any run of
the inner loop, and the specimen is only replaced by a candidate whose
score is strictly below the stored score. -/
theorem score_monotone_within_session (finished : Nat → FitnessScore → Bool)
    (envs : List IterEnv) (st : LoopState) (e : IterEnv) :
    (loopBody st e).shared.score ≤ st.shared.score
    ∧ (loopRun finished envs st).shared.score ≤ st.shared.score
    ∧ ((loopBody st e).shared.specimen ≠ st.shared.specimen →
        e.cand.score < st.shared.score
        ∧ (loopBody st e).shared.score = e.cand.score) := by
  refine ⟨loopBody_score_le st e, loopRun_score_le finished envs st, fun h => ?_⟩
  by_cases hc : e.cand.score ≥ st.shared.score
  · exact absurd (by simp [loopBody, acceptStep, hc]) h
  · refine ⟨lt_of_not_ge hc, ?_⟩
    simp [loopBody, acceptStep, hc]

/-- Witness for C2 at a concrete specimen-changing iteration. -/
theorem score_monotone_within_session_witness :
    exEnv.cand.score < exLoopState.shared.score
    ∧ (loopBody exLoopState exEnv).shared.score = exEnv.cand.score :=
  (score_monotone_within_session (fun _ _ => false) [] exLoopState exEnv).2.2 (by decide)

/-- C3: the stagnation counter is incremented by exactly one on a rejected
candidate and set to exactly zero on an accepted one; the counter computed
by an executed loop iteration is exactly the one of the acceptance step,
and it is unaffected by every other component of the iteration environment
(in particular the wall-clock readings): two environments carrying the
same candidate yield the same counter. -/
theorem stagnation_counter_correct (st : LoopState) (c : IterResult)
    (e1 e2 : IterEnv) :
    (st.shared.score ≤ c.score →
      (acceptStep st c).n_iterations_with_same_score
        = st.n_iterations_with_same_score + 1)
    ∧ (c.score < st.shared.score →
      (acceptStep st c).n_iterations_with_same_score = 0)
    ∧ (loopBody st e1).n_iterations_with_same_score
        = (acceptStep st e1.cand).n_iterations_with_same_score
    ∧ (e1.cand = e2.cand →
      (loopBody st e1).n_iterations_with_same_score
        = (loopBody st e2).n_iterations_with_same_score) := by
  refine ⟨fun h => by simp [acceptStep, h], fun h => by simp [acceptStep, not_le.mpr h], ?_, ?_⟩
  · by_cases hc : e1.cand.score ≥ st.shared.score
    · simp [loopBody, acceptStep, hc]
    · simp [loopBody, acceptStep, hc]
  · intro h
    by_cases hc : e1.cand.score ≥ st.shared.score
    · simp [loopBody, acceptStep, hc, h, h ▸ hc]
    · simp [loopBody, acceptStep, hc, h ▸ hc]

/-- Witness for C3 at a concrete rejected candidate. -/
theorem stagnation_counter_correct_witness :
    (acceptStep exLoopState exCandBad).n_iterations_with_same_score
      = exLoopState.n_iterations_with_same_score + 1 :=
  (stagnation_counter_correct exLoopState exCandBad exEnv exEnv).1 (by decide)

/-- One executed loop iteration increments the generation index by one. -/
theorem loopBody_generation (st : LoopState) (e : IterEnv) :
    (loopBody st e).generation_index = st.generation_index + 1 := by
  by_cases hc : e.cand.score ≥ st.shared.score <;> simp [loopBody, acceptStep, hc]

/-- When an environment is locked with both flags clear, the iteration
executes regardless of the time budget and without consulting the
convergence predicate. -/
theorem loopRun_locked_all (f g : Nat → FitnessScore → Bool) :
    ∀ (envs : List IterEnv) (st : LoopState),
    (∀ x ∈ envs, x.lock_image = true ∧ x.flag_stop = false ∧ x.flag_next_image = false) →
    (loopRun f envs st).generation_index = st.generation_index + envs.length
    ∧ loopRun f envs st = loopRun g envs st := by
  intro envs
  induction envs with
  | nil =>
    intro st _
    simp [loopRun]
  | cons e es ih =>
    intro st h
    obtain ⟨hl, hs, hn⟩ := h e (List.mem_cons_self e es)
    have hrest : ∀ x ∈ es, x.lock_image = true ∧ x.flag_stop = false ∧ x.flag_next_image = false :=
      fun x hx => h x (List.mem_cons_of_mem e hx)
    have hg : shouldContinue e = true := by simp [shouldContinue, hl, hs, hn]
    have hstep : ∀ (k : Nat → FitnessScore → Bool),
        loopRun k (e :: es) st = loopRun k es (loopBody st e) := by
      intro k
      simp [loopRun, hg, hl]
    obtain ⟨ihgen, iheq⟩ := ih (loopBody st e) hrest
    constructor
    · rw [hstep f, ihgen, loopBody_generation]
      simp [List.length_cons]
      omega
    · rw [hstep f, hstep g, iheq]

/-- C4: when lock_image holds, the per-image loop never exits because of
elapsed time alone: the loop guard fails exactly when flag_stop or
flag_next_image is set (and then the loop ends at once); over any sequence
of locked iterations with both flags clear, every iteration executes no
matter how the time budget reads, and the result is independent of the
convergence predicate (the convergence check is skipped). -/
theorem lock_overrides_timeout (finished finished2 : Nat → FitnessScore → Bool)
    (e : IterEnv) (envs : List IterEnv) (st : LoopState) :
    (e.lock_image = true →
      (shouldContinue e = false ↔ (e.flag_stop || e.flag_next_image) = true))
    ∧ (e.lock_image = true → (e.flag_stop || e.flag_next_image) = true →
        loopRun finished (e :: envs) st = st)
    ∧ ((∀ x ∈ envs, x.lock_image = true ∧ x.flag_stop = false ∧ x.flag_next_image = false) →
        (loopRun finished envs st).generation_index = st.generation_index + envs.length
        ∧ loopRun finished envs st = loopRun finished2 envs st) := by
  refine ⟨fun hl => ?_, fun hl hf => ?_, fun h => loopRun_locked_all finished finished2 envs st h⟩
  · cases hsb : e.flag_stop <;> cases hnb : e.flag_next_image <;>
      simp [shouldContinue, hl, hsb, hnb]
  · have hg : shouldContinue e = false := by
      have hf2 : e.flag_stop = true ∨ e.flag_next_image = true := by simpa using hf
      rcases hf2 with h1 | h1 <;> simp [shouldContinue, h1]
    simp [loopRun, hg]

/-- Witness for C4: one locked, flag-clear, time-expired environment still
executes its iteration, and the run is the same under two convergence
predicates that disagree everywhere. -/
theorem lock_overrides_timeout_witness :
    (loopRun (fun _ _ => true) [exEnvLocked] exLoopState).generation_index
      = exLoopState.generation_index + 1
    ∧ loopRun (fun _ _ => true) [exEnvLocked] exLoopState
      = loopRun (fun _ _ => false) [exEnvLocked] exLoopState := by
  have h := (lock_overrides_timeout (fun _ _ => true) (fun _ _ => false)
    exEnvLocked [exEnvLocked] exLoopState).2.2 (by decide)
  simpa using h

/-- A wait run whose first tick continues never exits at that tick. -/
theorem waitPolls_map_ne_zero (o : Option Nat) :
    Option.map (fun n => n + 1) o ≠ some 0 := by
  cases o <;> simp

/-- Counterexample to C5: at a poll tick where lock_image holds and
flag_stop is true (and the delay has long elapsed), the wait loop does not
exit within that poll interval: the continuation condition still holds and
the run keeps sleeping. -/
theorem wait_lock_ignores_stop_counterexample :
    exWaitLocked.lock_image = true ∧ exWaitLocked.flag_stop = true
    ∧ waitContinue exWaitLocked = true
    ∧ waitPolls [exWaitLocked] = none := by
  decide

/-- C5 amended: while lock_image is true the inter-image wait never exits,
neither for the elapsed delay nor for flag_stop or flag_next_image; when
lock_image is false at a poll tick, the wait exits within that tick exactly
when the delay has elapsed or flag_stop or flag_next_image is set. -/
theorem wait_exit_characterization (w : WaitEnv) (ws : List WaitEnv) :
    (w.lock_image = true →
      waitContinue w = true ∧ waitPolls (w :: ws) ≠ some 0)
    ∧ (w.lock_image = false →
      (waitPolls (w :: ws) = some 0
        ↔ (w.wait_expired || w.flag_stop || w.flag_next_image) = true)) := by
  constructor
  · intro hl
    have hc : waitContinue w = true := by simp [waitContinue, hl]
    refine ⟨hc, ?_⟩
    simp only [waitPolls, hc, if_true]
    exact waitPolls_map_ne_zero (waitPolls ws)
  · intro hl
    by_cases hc : waitContinue w = true
    · have hx : (w.wait_expired || w.flag_stop || w.flag_next_image) = false := by
        cases he : w.wait_expired <;> cases hs : w.flag_stop <;>
          cases hn : w.flag_next_image <;>
          simp_all [waitContinue]
      simp only [waitPolls, hc, if_true, hx]
      simp [waitPolls_map_ne_zero (waitPolls ws)]
    · have hx : (w.wait_expired || w.flag_stop || w.flag_next_image) = true := by
        cases he : w.wait_expired <;> cases hs : w.flag_stop <;>
          cases hn : w.flag_next_image <;>
          simp_all [waitContinue]
      simp [waitPolls, hc, hx]

/-- Witness for the amended C5 at a concrete locked, stop-requested tick. -/
theorem wait_exit_characterization_witness :
    waitContinue exWaitLocked = true ∧ waitPolls [exWaitLocked] ≠ some 0 :=
  (wait_exit_characterization exWaitLocked []).1 (by decide)

/-- random.choice on a non-empty list returns one of its elements. -/
theorem randomChoice_mem (paths : List String) (k : Nat) (p : String)
    (h : randomChoice paths k = Except.ok p) : p ∈ paths := by
  cases paths with
  | nil => simp [randomChoice] at h
  | cons q qs =>
    simp only [randomChoice, Except.ok.injEq] at h
    subst h
    have hlt : k % (q :: qs).length < (q :: qs).length :=
      Nat.mod_lt _ (by simp)
    rw [List.getD_eq_getElem (q :: qs) q hlt]
    exact List.getElem_mem hlt

/-- Whenever the selector retry loop returns a path, that path is one of
the candidates and differs from the previous path. -/
theorem selectLoop_ok (paths : List String) (previous : String)
    (choices : Nat → Nat) :
    ∀ (fuel i : Nat) (p : String),
    selectLoop paths previous choices i fuel = some (Except.ok p) →
    p ∈ paths ∧ p ≠ previous := by
  intro fuel
  induction fuel with
  | zero =>
    intro i p h
    simp [selectLoop] at h
  | succ n ih =>
    intro i p h
    simp only [selectLoop] at h
    cases hc : randomChoice paths (choices i) with
    | error err =>
      rw [hc] at h
      simp at h
    | ok q =>
      rw [hc] at h
      dsimp only at h
      by_cases hq : q = previous
      · rw [if_pos hq] at h
        exact ih (i + 1) p h
      · rw [if_neg hq] at h
        simp only [Option.some.injEq, Except.ok.injEq] at h
        subst h
        exact ⟨randomChoice_mem paths (choices i) q hc, hq⟩

/-- Appending to a fixed string on the left is injective. -/
theorem string_append_left_cancel (s a b : String) (h : s ++ a = s ++ b) :
    a = b := by
  have h2 : (s ++ a).data = (s ++ b).data := by rw [h]
  simp [String.data_append] at h2
  exact String.ext h2

/-- C6: whenever the selector returns, the returned path is drawn from the
directory listing and differs from the previous path; in particular, for a
two-file directory [A, B] with previous path the joined path of A, every
returning run returns the joined path of B. -/
theorem selector_non_repetition (folder : String) (files : List String)
    (previous p : String) (choices : Nat → Nat) (fuel : Nat)
    (A B q : String) (choices2 : Nat → Nat) (fuel2 : Nat) :
    (get_random_image_path folder files previous choices fuel
        = some (Except.ok p) →
      p ∈ imgPaths folder files ∧ p ≠ previous)
    ∧ (A ≠ B →
      get_random_image_path folder [A, B] (folder ++ "/" ++ A) choices2 fuel2
        = some (Except.ok q) →
      q = folder ++ "/" ++ B) := by
  constructor
  · intro h
    exact selectLoop_ok (imgPaths folder files) previous choices fuel 0 p h
  · intro _hAB h
    obtain ⟨hmem, hne⟩ :=
      selectLoop_ok (imgPaths folder [A, B]) (folder ++ "/" ++ A) choices2 fuel2 0 q h
    simp only [imgPaths, List.map_cons, List.map_nil, List.mem_cons,
      List.not_mem_nil, or_false] at hmem
    rcases hmem with hq | hq
    · exact absurd hq hne
    · exact hq

/-- Witness for C6 at a concrete two-file directory. -/
theorem selector_non_repetition_witness :
    (("d" : String) ++ "/" ++ "b") ∈ imgPaths ("d") (["a", "b"])
    ∧ (("d" : String) ++ "/" ++ "b") ≠ ("d" : String) ++ "/" ++ "a" :=
  (selector_non_repetition ("d") (["a", "b"]) ("d" ++ "/" ++ "a")
    ("d" ++ "/" ++ "b") (fun _ => 1) 3 ("a") ("b") ("d" ++ "/" ++ "b")
    (fun _ => 1) 3).1 (by rfl)

/-- The retry loop on a one-element candidate list equal to the previous
path never returns, whatever the index stream and start index. -/
theorem selectLoop_singleton (f : String) (choices : Nat → Nat) :
    ∀ (fuel i : Nat), selectLoop [f] f choices i fuel = none := by
  intro fuel
  induction fuel with
  | zero => intro i; rfl
  | succ n ih =>
    intro i
    have hch : randomChoice [f] (choices i) = Except.ok f := by
      simp [randomChoice, Nat.mod_one]
    simp only [selectLoop, hch]
    rw [if_pos trivial]
    exact ih (i + 1)

/-- C7: with exactly one candidate file whose joined path equals the
previous path, the selector retry loop never terminates: no number of
retries produces a return value. -/
theorem single_file_selector_diverges (folder f : String)
    (choices : Nat → Nat) (i fuel : Nat) :
    selectLoop [f] f choices i fuel = none
    ∧ get_random_image_path folder [f] (folder ++ "/" ++ f) choices fuel = none := by
  refine ⟨selectLoop_singleton f choices fuel i, ?_⟩
  simp only [get_random_image_path, imgPaths, List.map_cons, List.map_nil]
  exact selectLoop_singleton (folder ++ "/" ++ f) choices fuel 0

/-- C8: with an empty directory the selector fails with NoCandidateImages
on its very first draw, and the whole image session surfaces that failure
before any optimization-loop iteration runs: for every loop environment
sequence and convergence predicate the session result is the bare error. -/
theorem empty_directory_fails (folder prev : String) (choices : Nat → Nat)
    (fuel : Nat) (brush : BrushSet) (timg : Image) (ispec : Specimen)
    (gf : Fitness) (finished : Nat → FitnessScore → Bool)
    (envs : List IterEnv) (st : LoopState) :
    get_random_image_path folder [] prev choices (fuel + 1)
      = some (Except.error FinchError.NoCandidateImages)
    ∧ imageSession folder [] brush timg ispec choices (fuel + 1) gf finished envs st
      = some (Except.error FinchError.NoCandidateImages) := by
  constructor
  · simp [get_random_image_path, imgPaths, selectLoop, randomChoice]
  · simp [imageSession, init_result, get_random_image_path, imgPaths,
      selectLoop, randomChoice]

/-- Counterexample to C9: per-image initialization on a non-placeholder
specimen writes the shared score (to the sentinel 9999999) without any
simultaneous write of the shared specimen. -/
theorem publish_discipline_counterexample :
    exShared.specimen.is_placeholder = false
    ∧ (init_for_next_image ("img/b.png") 2 3 exSpecimen exShared).score
        ≠ exShared.score
    ∧ (init_for_next_image ("img/b.png") 2 3 exSpecimen exShared).specimen
        = exShared.specimen := by
  decide

/-- C9 amended: inside the optimization loop the shared specimen and score
are only assigned together and only after confirming strict improvement
(if the acceptance step changes either field, the candidate strictly
improved and both fields now hold the candidate's values), but per-image
initialization writes the sentinel score 9999999 without a simultaneous
specimen write whenever the specimen is not the placeholder. -/
theorem publish_discipline_amended (st : LoopState) (c : IterResult)
    (p : String) (brush : BrushSet) (timg : Image) (ispec : Specimen)
    (s : State) :
    ((acceptStep st c).shared.score ≠ st.shared.score
        ∨ (acceptStep st c).shared.specimen ≠ st.shared.specimen →
      c.score < st.shared.score
      ∧ (acceptStep st c).shared.score = c.score
      ∧ (acceptStep st c).shared.specimen = c.specimen)
    ∧ (s.specimen.is_placeholder = false →
      (init_for_next_image p brush timg ispec s).specimen = s.specimen
      ∧ (init_for_next_image p brush timg ispec s).score = 9999999) := by
  constructor
  · intro h
    by_cases hc : c.score ≥ st.shared.score
    · rcases h with h | h <;> exact absurd (by simp [acceptStep, hc]) h
    · exact ⟨lt_of_not_ge hc, by simp [acceptStep, hc], by simp [acceptStep, hc]⟩
  · intro h
    constructor <;> simp [init_for_next_image, h]

/-- Witness for the amended C9 at a concrete non-placeholder state. -/
theorem publish_discipline_amended_witness :
    (init_for_next_image ("img/b.png") 2 3 exSpecimen exShared).specimen
      = exShared.specimen
    ∧ (init_for_next_image ("img/b.png") 2 3 exSpecimen exShared).score
      = 9999999 :=
  (publish_discipline_amended exLoopState exCand ("img/b.png") 2 3 exSpecimen
    exShared).2 (by decide)

/-- The loop state at which a new image session enters the inner loop:
shared state after initialization, the fresh fitness state, the carried
stagnation counter, and generation index zero. -/
def sessionEntry (p : String) (brush : BrushSet) (timg : Image)
    (ispec : Specimen) (gf : Fitness) (st : LoopState) : LoopState :=
  { shared := init_for_next_image p brush timg ispec st.shared,
    fitness := gf,
    n_iterations_with_same_score := st.n_iterations_with_same_score,
    generation_index := 0 }

/-- C10: switching to a new target image does not reset the stagnation
counter: the state entering the new session's loop carries the previous
session's counter unchanged while the score is reset to the sentinel
9999999; a first rejected iteration raises the counter to the carried
value plus one, and the convergence predicate for the new image is then
consulted at exactly that carried-over count. -/
theorem stagnation_counter_carries_over (folder : String) (files : List String)
    (brush : BrushSet) (timg : Image) (ispec : Specimen) (choices : Nat → Nat)
    (fuel : Nat) (gf : Fitness) (finished : Nat → FitnessScore → Bool)
    (e : IterEnv) (es : List IterEnv) (st : LoopState) (p : String)
    (hsel : get_random_image_path folder files st.shared.img_path choices fuel
      = some (Except.ok p))
    (hg : shouldContinue e = true) (hl : e.lock_image = false)
    (hrej : (9999999 : Int) ≤ e.cand.score) :
    ∃ entry : LoopState,
      imageSession folder files brush timg ispec choices fuel gf finished (e :: es) st
        = some (Except.ok (loopRun finished (e :: es) entry))
      ∧ entry.n_iterations_with_same_score = st.n_iterations_with_same_score
      ∧ entry.shared.score = 9999999
      ∧ (loopBody entry e).n_iterations_with_same_score
          = st.n_iterations_with_same_score + 1
      ∧ loopRun finished (e :: es) entry
          = (if finished (st.n_iterations_with_same_score + 1) 9999999 = true
             then loopBody entry e
             else loopRun finished es (loopBody entry e)) := by
  have hscore : (init_for_next_image p brush timg ispec st.shared).score
      = 9999999 := by
    simp [init_for_next_image]
  have hn : (loopBody (sessionEntry p brush timg ispec gf st) e).n_iterations_with_same_score
      = st.n_iterations_with_same_score + 1 := by
    simp [sessionEntry, loopBody, acceptStep, hscore, hrej]
  have hs2 : (loopBody (sessionEntry p brush timg ispec gf st) e).shared.score
      = 9999999 := by
    simp [sessionEntry, loopBody, acceptStep, hscore, hrej]
  refine ⟨sessionEntry p brush timg ispec gf st, ?_, rfl, ?_, hn, ?_⟩
  · simp [imageSession, init_result, hsel, sessionEntry]
  · simp [sessionEntry, hscore]
  · simp only [loopRun, hg, if_true, hn, hs2, hl, Bool.not_false, Bool.true_and]

/-- Witness for C10 at a concrete session switch with a carried counter of
4 and a first rejected candidate. -/
theorem stagnation_counter_carries_over_witness :
    ∃ entry : LoopState,
      imageSession ("d") (["a", "b"]) 0 0 exSpecimen (fun _ => 0) 1 0
          (fun _ _ => false) [exEnvReject] exLoopState
        = some (Except.ok (loopRun (fun _ _ => false) [exEnvReject] entry))
      ∧ entry.n_iterations_with_same_score
          = exLoopState.n_iterations_with_same_score
      ∧ entry.shared.score = 9999999
      ∧ (loopBody entry exEnvReject).n_iterations_with_same_score
          = exLoopState.n_iterations_with_same_score + 1
      ∧ loopRun (fun _ _ => false) [exEnvReject] entry
          = (if (fun _ _ => false) (exLoopState.n_iterations_with_same_score + 1)
                 (9999999 : Int) = true
             then loopBody entry exEnvReject
             else loopRun (fun _ _ => false) [] (loopBody entry exEnvReject)) :=
  stagnation_counter_carries_over ("d") (["a", "b"]) 0 0 exSpecimen (fun _ => 0)
    1 0 (fun _ _ => false) exEnvReject [] exLoopState ("d" ++ "/" ++ "a")
    (by rfl) (by decide) (by decide) (by decide)

end Finch
